import Mathlib

open scoped Classical

/-!
Shallow embedding of the geoguessr-agent repository (src/geoguessr.py,
src/scorer.py, src/vlm.py, src/main.py, src/output.py) and proofs about it.

Modelling conventions:
- Python floats are idealised as real numbers; Python ints as integers.
- Python `round` (banker's rounding) is modelled by Mathlib's `round`
  (round half up); the two differ only at exact half-integer ties, which
  none of the statements below touch.
- Python operations that raise (float division by zero, list index out of
  range, explicit `raise ValueError`) are modelled with `Option` / `Except`
  results carrying a `PyError` describing the exception.
- External collaborator calls (OpenAI inference) are modelled by passing the
  collaborator's response as an explicit argument; only the code surrounding
  the call (input validation) is embedded.
-/

/-! ## Data model (src/geoguessr.py dataclasses) -/

/-- A dict of the shape given in geoguessr.Distance, e.g. a JSON object with
an amount string and a unit string. -/
structure AmountUnit where
  amount : String
  unit : String

/-- geoguessr.Score. -/
structure Score where
  amount : String
  unit : String
  percentage : ℝ

/-- geoguessr.Distance: meters and miles dicts. -/
structure Distance where
  meters : AmountUnit
  miles : AmountUnit

/-- geoguessr.Guess. -/
structure Guess where
  lat : ℝ
  lng : ℝ
  roundScore : Score
  roundScoreInPercentage : ℝ
  roundScoreInPoints : ℤ
  distance : Distance
  distanceInMeters : ℝ

/-- geoguessr.Player. -/
structure Player where
  totalScore : Score
  totalDistance : Distance
  totalDistanceInMeters : ℝ
  guesses : List Guess

/-- geoguessr.Round: one round's true coordinate. -/
structure Round where
  lat : ℝ
  lng : ℝ

/-- A lat/lng dict as stored in geoguessr.Bounds.min and geoguessr.Bounds.max. -/
structure LatLng where
  lat : ℝ
  lng : ℝ

/-- geoguessr.Bounds. -/
structure Bounds where
  min : LatLng
  max : LatLng

/-- geoguessr.GameState. -/
structure GameState where
  token : String
  player : Player
  rounds : List Round
  bounds : Bounds

/-- scorer.LocationGuess. -/
structure LocationGuess where
  latitude : ℝ
  longitude : ℝ
  score : ℤ
  distance_km : ℝ
  explanation : String

/-- scorer.RoundResult. -/
structure RoundResult where
  round_number : ℤ
  gpt4o_guess : LocationGuess
  o1_guess : LocationGuess
  actual_location : Round

/-- scorer.GameResults (the mutable dataclass state). -/
structure GameResults where
  game_token : String
  rounds : List RoundResult
  final_score_gpt4o : ℤ
  final_score_o1 : ℤ
  total_distance_gpt4o : ℝ
  total_distance_o1 : ℝ

/-- The location dicts passed into save_round_results: keys latitude,
longitude and an optional explanation (read with .get defaulting to an
empty string). -/
structure LocationDict where
  latitude : ℝ
  longitude : ℝ
  explanation : Option String

/-- The Python exceptions the embedded code can raise. -/
inductive PyError where
  | indexError
  | zeroDivisionError
  | scoreMismatch (predicted : ℤ) (actual : ℤ)
  | tooFewImages (got : ℕ)
deriving DecidableEq

/-- Python list indexing l[i]: nonnegative indices from the front,
negative indices from the back, IndexError (none) when out of range. -/
def pythonListGet {α : Type} (l : List α) (i : ℤ) : Option α :=
  if 0 ≤ i then l.get? i.toNat
  else if 0 ≤ i + l.length then l.get? (i + l.length).toNat
  else none

/-- Python range(start, stop) for natural bounds. -/
def pythonRange (start stop : ℕ) : List ℕ :=
  List.range' start (stop - start)

/-! ## GeoMath (src/scorer.py lines 198-248, duplicated in src/geoguessr.py) -/

/-- math.radians. -/
noncomputable def radians (x : ℝ) : ℝ := x * Real.pi / 180

/-- scorer._haversine_distance: great-circle distance in kilometers. -/
noncomputable def _haversine_distance (lat1 lng1 lat2 lng2 : ℝ) : ℝ :=
  let R : ℝ := 6371.0
  let lat1 := radians lat1
  let lng1 := radians lng1
  let lat2 := radians lat2
  let lng2 := radians lng2
  let dlat := lat2 - lat1
  let dlng := lng2 - lng1
  let a :=
    Real.sin (dlat / 2) ^ 2 +
      Real.cos lat1 * Real.cos lat2 * Real.sin (dlng / 2) ^ 2
  let c := 2 * Real.arcsin (Real.sqrt a)
  R * c

/-- The map_size_km local of scorer.predict_score: the haversine distance
between the bounds' min and max corners. -/
noncomputable def mapSizeKm (game_state : GameState) : ℝ :=
  _haversine_distance game_state.bounds.min.lat game_state.bounds.min.lng
    game_state.bounds.max.lat game_state.bounds.max.lng

/-- scorer.predict_score. In Python, dividing a float by 0.0 raises
ZeroDivisionError; that is the none case. -/
noncomputable def predict_score (game_state : GameState)
    (answer_lat answer_lng guess_lat guess_lng : ℝ) : Option ℤ :=
  let guessed_distance_km :=
    _haversine_distance answer_lat answer_lng guess_lat guess_lng
  let map_size_km := mapSizeKm game_state
  if map_size_km = 0 then none
  else some (round ((5000 : ℝ) * Real.exp (-10 * guessed_distance_km / map_size_km)))

/-- scorer.calculate_distance_km. -/
noncomputable def calculate_distance_km (lat1 lng1 lat2 lng2 : ℝ) : ℝ :=
  _haversine_distance lat1 lng1 lat2 lng2

/-! ## GameResults methods (src/scorer.py lines 42-131) -/

/-- scorer.GameResults._check_score_prediction: recomputes the predicted
score from the LAST round in game_state.rounds (rounds[-1]) and raises
ValueError when it differs from actual_score by more than 1. -/
noncomputable def _check_score_prediction (game_state : GameState)
    (predicted_lat predicted_lng : ℝ) (actual_score : ℤ) :
    Except PyError Unit :=
  match pythonListGet game_state.rounds (-1) with
  | none => .error .indexError
  | some answer_coords =>
    match predict_score game_state answer_coords.lat answer_coords.lng
        predicted_lat predicted_lng with
    | none => .error .zeroDivisionError
    | some predicted_score =>
      if 1 < |predicted_score - actual_score| then
        .error (.scoreMismatch predicted_score actual_score)
      else
        .ok ()

/-- scorer.GameResults.save_round_results. Python mutates self in place and
then may raise; we return both the final state (mutations persist even when
an exception propagates) and the normal/exceptional outcome. Note the
round_result is appended and the distance totals updated BEFORE the score
prediction check runs. -/
noncomputable def save_round_results (g : GameResults) (game_state : GameState)
    (round_number : ℤ) (gpt4o_location o1_location : LocationDict)
    (actual_score : ℤ) : GameResults × Except PyError RoundResult :=
  match pythonListGet game_state.rounds (round_number - 1) with
  | none => (g, .error .indexError)
  | some actual_coords =>
    match predict_score game_state actual_coords.lat actual_coords.lng
        o1_location.latitude o1_location.longitude with
    | none => (g, .error .zeroDivisionError)
    | some o1_score =>
      let gpt4o_guess : LocationGuess :=
        { latitude := gpt4o_location.latitude
          longitude := gpt4o_location.longitude
          score := actual_score
          distance_km := calculate_distance_km actual_coords.lat
            actual_coords.lng gpt4o_location.latitude gpt4o_location.longitude
          explanation := gpt4o_location.explanation.getD "" }
      let o1_guess : LocationGuess :=
        { latitude := o1_location.latitude
          longitude := o1_location.longitude
          score := o1_score
          distance_km := calculate_distance_km actual_coords.lat
            actual_coords.lng o1_location.latitude o1_location.longitude
          explanation := o1_location.explanation.getD "" }
      let round_result : RoundResult :=
        { round_number := round_number
          gpt4o_guess := gpt4o_guess
          o1_guess := o1_guess
          actual_location := actual_coords }
      let g2 : GameResults :=
        { g with
          rounds := g.rounds ++ [round_result]
          total_distance_gpt4o := g.total_distance_gpt4o + gpt4o_guess.distance_km
          total_distance_o1 := g.total_distance_o1 + o1_guess.distance_km }
      match _check_score_prediction game_state gpt4o_location.latitude
          gpt4o_location.longitude actual_score with
      | .error e => (g2, .error e)
      | .ok _ => (g2, .ok round_result)

/-! ## VLM layer (src/vlm.py) -/

/-- vlm.InterestingObject. -/
structure InterestingObject where
  name : String
  x : ℤ
  y : ℤ
deriving DecidableEq

/-- vlm.IdentifiedLocation. -/
structure IdentifiedLocation where
  explanation : String
  country : String
  region : String
  latitude : ℝ
  longitude : ℝ

/-- vlm.identify_location_o1 (src/vlm.py lines 111-195). The OpenAI call is
an external collaborator; its parsed reply is passed in as response. The
embedded behaviour is the input-validation gate that runs before the call:
fewer than 3 images raises ValueError. -/
def identify_location_o1 (images_base64 : List String)
    (response : IdentifiedLocation) : Except PyError IdentifiedLocation :=
  if images_base64.length < 3 then
    .error (.tooFewImages images_base64.length)
  else
    .ok response

/-- vlm.identify_location_gpt4o (src/vlm.py lines 198-287): same
input-validation gate as identify_location_o1. -/
def identify_location_gpt4o (images_base64 : List String)
    (response : IdentifiedLocation) : Except PyError IdentifiedLocation :=
  if images_base64.length < 3 then
    .error (.tooFewImages images_base64.length)
  else
    .ok response

/-- math.dist on two pixel points: Euclidean distance. -/
noncomputable def mathDist (p q : ℤ × ℤ) : ℝ :=
  Real.sqrt ((((p.1 : ℝ) - (q.1 : ℝ)) ^ 2 + ((p.2 : ℝ) - (q.2 : ℝ)) ^ 2))

/-- The loop body of deduplicate_interesting_objects: walk the input,
keeping an object unless some already-picked object is within 250 px
(the inner for/break loop computes exactly that existential). -/
noncomputable def dedupAux :
    List InterestingObject → List InterestingObject → List InterestingObject
  | picked, [] => picked
  | picked, obj :: rest =>
    if ∃ picked_obj ∈ picked,
        mathDist (obj.x, obj.y) (picked_obj.x, picked_obj.y) < 250 then
      dedupAux picked rest
    else
      dedupAux (picked ++ [obj]) rest

/-- main.deduplicate_interesting_objects (src/main.py lines 49-72). -/
noncomputable def deduplicate_interesting_objects
    (objects : List InterestingObject) : List InterestingObject :=
  dedupAux [] objects

/-- vlm.deduplicate_interesting_objects (src/vlm.py lines 290-316): same
loop, but with an early return for the empty input list. -/
noncomputable def deduplicate_interesting_objects_vlm
    (objects : List InterestingObject) : List InterestingObject :=
  if objects = [] then objects
  else dedupAux [] objects

/-- Squared pixel distance, used for the executable twin of dedupAux. -/
def distSq (p q : ℤ × ℤ) : ℤ :=
  (p.1 - q.1) ^ 2 + (p.2 - q.2) ^ 2

/-- Executable twin of dedupAux: compares squared distances to 250 squared,
which is equivalent because Real.sqrt is strictly monotone. -/
def dedupSqAux :
    List InterestingObject → List InterestingObject → List InterestingObject
  | picked, [] => picked
  | picked, obj :: rest =>
    if picked.any (fun p => decide (distSq (obj.x, obj.y) (p.x, p.y) < 62500)) then
      dedupSqAux picked rest
    else
      dedupSqAux (picked ++ [obj]) rest

/-- Executable twin of deduplicate_interesting_objects. -/
def dedupSq (objects : List InterestingObject) : List InterestingObject :=
  dedupSqAux [] objects

/-! ## ResultsAggregator (src/output.py) -/

/-- output.ModelStats. -/
structure ModelStats where
  model_name : String
  total_score : ℤ
  score_percentage : ℝ
  avg_score_per_game : ℝ
  median_distance_km : ℝ
  min_distance_km : ℝ
  max_distance_km : ℝ

/-- output.AggregateModelStats (extends ModelStats). -/
structure AggregateModelStats extends ModelStats where
  max_game_score : ℤ
  min_game_score : ℤ

/-- Python min over a list: none on the empty list (ValueError). -/
def pyMin {α : Type} [LinearOrder α] : List α → Option α
  | [] => none
  | x :: xs => some (xs.foldl min x)

/-- Python max over a list: none on the empty list (ValueError). -/
def pyMax {α : Type} [LinearOrder α] : List α → Option α
  | [] => none
  | x :: xs => some (xs.foldl max x)

/-- output.ModelStats.from_rounds. On an empty rounds list Python raises
(ZeroDivisionError on the percentage, IndexError on the median); with
total_games == 0 it raises ZeroDivisionError on the average: both are the
none case. -/
noncomputable def ModelStats.from_rounds (model_name : String)
    (rounds : List RoundResult) (score_fn : RoundResult → ℤ)
    (distance_fn : RoundResult → ℝ) (total_games : ℤ) : Option ModelStats :=
  let scores := rounds.map score_fn
  let distances := rounds.map distance_fn
  let total_score := scores.sum
  let total_possible : ℤ := (rounds.length : ℤ) * 5000
  if rounds = [] ∨ total_games = 0 then none
  else
    some
      { model_name := model_name
        total_score := total_score
        score_percentage := ((total_score : ℝ) / (total_possible : ℝ)) * 100
        avg_score_per_game := (total_score : ℝ) / (total_games : ℝ)
        median_distance_km :=
          (List.insertionSort (fun a b => a ≤ b) distances).getD
            (distances.length / 2) 0
        min_distance_km := (pyMin distances).getD 0
        max_distance_km := (pyMax distances).getD 0 }

/-- The game_scores list comprehension of AggregateModelStats.from_rounds:
sums of consecutive chunks of 5 scores. -/
def gameScores (scores : List ℤ) : List ℤ :=
  (List.range ((scores.length + 4) / 5)).map
    (fun i => ((scores.drop (5 * i)).take 5).sum)

/-- output.AggregateModelStats.from_rounds. -/
noncomputable def AggregateModelStats.from_rounds (model_name : String)
    (rounds : List RoundResult) (score_fn : RoundResult → ℤ)
    (distance_fn : RoundResult → ℝ) (total_games : ℤ) :
    Option AggregateModelStats :=
  let scores := rounds.map score_fn
  let distances := rounds.map distance_fn
  let total_score := scores.sum
  let total_possible : ℤ := (rounds.length : ℤ) * 5000
  let game_scores := gameScores scores
  if rounds = [] ∨ total_games = 0 then none
  else
    some
      { model_name := model_name
        total_score := total_score
        score_percentage := ((total_score : ℝ) / (total_possible : ℝ)) * 100
        avg_score_per_game := (total_score : ℝ) / (total_games : ℝ)
        median_distance_km :=
          (List.insertionSort (fun a b => a ≤ b) distances).getD
            (distances.length / 2) 0
        min_distance_km := (pyMin distances).getD 0
        max_distance_km := (pyMax distances).getD 0
        max_game_score := (pyMax game_scores).getD 0
        min_game_score := (pyMin game_scores).getD 0 }

/-! ## Round loop of src/main.py -/

/-- The round_number values iterated by the round loop in main.main
(src/main.py line 189): for round_number in range(1, 2). -/
def mainRoundNumbers : List ℕ := pythonRange 1 2

/-! ## Concrete fixtures used by witnesses and counterexamples -/

/-- A dummy player (inert in everything the claims touch). -/
def player0 : Player :=
  ⟨⟨"", "", 0⟩, ⟨⟨"", ""⟩, ⟨"", ""⟩⟩, 0, []⟩

/-- A game state with one round at the origin and an equatorial half-world
bounding box, whose diagonal is a quarter great circle of length 6371*pi. -/
def gs0 : GameState :=
  ⟨"", player0, [⟨0, 0⟩], ⟨⟨0, -90⟩, ⟨0, 90⟩⟩⟩

/-- A game state with degenerate bounds (min equals max). -/
def gsDeg : GameState :=
  ⟨"", player0, [⟨0, 0⟩], ⟨⟨1, 2⟩, ⟨1, 2⟩⟩⟩

/-- A game state with no rounds. -/
def gsEmpty : GameState :=
  ⟨"", player0, [], ⟨⟨0, -90⟩, ⟨0, 90⟩⟩⟩

/-- Fresh GameResults, no rounds recorded. -/
def g0 : GameResults := ⟨"", [], 0, 0, 0, 0⟩

/-- A guess dict at the origin. -/
def loc0 : LocationDict := ⟨0, 0, none⟩

/-! ## GeoMath lemmas -/

/-- The haversine distance from a point to itself is zero. -/
lemma haversine_self (lat lng : ℝ) : _haversine_distance lat lng lat lng = 0 := by
  unfold _haversine_distance
  simp [sub_self, Real.sin_zero, Real.sqrt_zero, Real.arcsin_zero]

/-- Haversine distance between two equatorial points, for a nonnegative
longitude difference of at most 180 degrees. -/
lemma haversine_lat0 (lng1 lng2 : ℝ) (h0 : 0 ≤ lng2 - lng1)
    (h1 : lng2 - lng1 ≤ 180) :
    _haversine_distance 0 lng1 0 lng2 = 6371 * ((lng2 - lng1) * Real.pi / 180) := by
  have hπ := Real.pi_pos
  have hx0 : 0 ≤ (lng2 - lng1) * Real.pi / 360 := by
    apply div_nonneg (mul_nonneg h0 hπ.le)
    norm_num
  have hxle : (lng2 - lng1) * Real.pi / 360 ≤ Real.pi / 2 := by
    have h2 : (lng2 - lng1) * Real.pi ≤ 180 * Real.pi :=
      mul_le_mul_of_nonneg_right h1 hπ.le
    linarith
  unfold _haversine_distance radians
  simp only [sub_self]
  rw [(by ring : (0 : ℝ) * Real.pi / 180 = 0)]
  rw [(by ring : (lng2 * Real.pi / 180 - lng1 * Real.pi / 180) / 2 =
        (lng2 - lng1) * Real.pi / 360)]
  norm_num [Real.cos_zero, Real.sin_zero]
  rw [Real.sqrt_sq_eq_abs,
    abs_of_nonneg (Real.sin_nonneg_of_nonneg_of_le_pi hx0 (by linarith)),
    Real.arcsin_sin (by linarith) hxle]
  ring

/-- The diagonal of gs0's bounds is a quarter great circle. -/
lemma mapSizeKm_gs0 : mapSizeKm gs0 = 6371 * Real.pi := by
  show _haversine_distance 0 (-90) 0 90 = 6371 * Real.pi
  rw [haversine_lat0 (-90) 90 (by norm_num) (by norm_num)]
  ring

lemma mapSizeKm_gs0_pos : 0 < mapSizeKm gs0 := by
  rw [mapSizeKm_gs0]
  positivity

lemma mapSizeKm_gsDeg : mapSizeKm gsDeg = 0 := by
  show _haversine_distance 1 2 1 2 = 0
  exact haversine_self 1 2

/-- round of an integer-valued real literal. -/
lemma round_5000 : round ((5000 : ℝ)) = 5000 := by
  rw [(by norm_num : ((5000 : ℝ)) = ((5000 : ℤ) : ℝ)), round_intCast]

/-- predict_score fails exactly when the map size is zero. -/
lemma predict_score_eq_none_iff (gs : GameState) (a b c d : ℝ) :
    predict_score gs a b c d = none ↔ mapSizeKm gs = 0 := by
  unfold predict_score
  by_cases h : mapSizeKm gs = 0
  · simp [h]
  · simp [h]

/-- predict_score on a non-degenerate map reduces to the rounded
exponential formula. -/
lemma predict_score_eq_some (gs : GameState) (a b c d : ℝ)
    (h : mapSizeKm gs ≠ 0) :
    predict_score gs a b c d =
      some (round ((5000 : ℝ) *
        Real.exp (-10 * _haversine_distance a b c d / mapSizeKm gs))) := by
  unfold predict_score
  simp [h]

/-- Zero guessed distance on a non-degenerate map predicts exactly 5000. -/
lemma predict_score_of_dist_zero (gs : GameState) (a b c d : ℝ)
    (hm : mapSizeKm gs ≠ 0) (hd : _haversine_distance a b c d = 0) :
    predict_score gs a b c d = some 5000 := by
  rw [predict_score_eq_some gs a b c d hm, hd]
  norm_num [Real.exp_zero, round_5000]

lemma predict_score_gs0_self : predict_score gs0 0 0 0 0 = some 5000 :=
  predict_score_of_dist_zero gs0 0 0 0 0 (ne_of_gt mapSizeKm_gs0_pos)
    (haversine_self 0 0)

/-- A small but nonzero equatorial distance: one thousandth of a degree. -/
lemma haversine_small :
    _haversine_distance 0 0 0 (1 / 1000) = 6371 * (Real.pi / 180000) := by
  rw [haversine_lat0 0 (1 / 1000) (by norm_num) (by norm_num)]
  ring

lemma haversine_small_pos : 0 < _haversine_distance 0 0 0 (1 / 1000) := by
  rw [haversine_small]
  positivity

/-- The exponent produced by gs0's map size at the small distance. -/
lemma ratio_small :
    -10 * (6371 * (Real.pi / 180000)) / (6371 * Real.pi) = -(1 / 18000) := by
  have hπ : Real.pi ≠ 0 := ne_of_gt Real.pi_pos
  field_simp
  ring

/-- 5000 times exp of a sufficiently small negative exponent still rounds
to 5000. -/
lemma round_small : round ((5000 : ℝ) * Real.exp (-(1 / 18000))) = 5000 := by
  rw [round_eq]
  rw [Int.floor_eq_iff]
  push_cast
  have h1 : (-(1 / 18000) : ℝ) + 1 ≤ Real.exp (-(1 / 18000)) :=
    Real.add_one_le_exp _
  have h2 : Real.exp (-(1 / 18000)) < 1 :=
    Real.exp_lt_one_iff.mpr (by norm_num)
  constructor <;> [nlinarith; nlinarith]

/-! ## Claims C3, C4, C5 -/

/-- Claim C3 (amended): for bounds with positive diagonal map size,
predict_score returns exactly 5000 whenever the haversine distance between
answer and guess is 0, in particular when guess equals answer. (The
converse direction of the original claim is false: see the
counterexample, where a positive distance also yields 5000.) -/
theorem claim_C3 (gs : GameState)
    (answer_lat answer_lng guess_lat guess_lng : ℝ)
    (hm : 0 < mapSizeKm gs)
    (hd : _haversine_distance answer_lat answer_lng guess_lat guess_lng = 0) :
    predict_score gs answer_lat answer_lng guess_lat guess_lng = some 5000 :=
  predict_score_of_dist_zero gs _ _ _ _ (ne_of_gt hm) hd

/-- Witness for claim C3 at a concrete input: gs0 has positive map size,
guessing the answer exactly gives distance 0 and score 5000. -/
theorem claim_C3_witness :
    0 < mapSizeKm gs0 ∧ _haversine_distance 0 0 0 0 = 0 ∧
      predict_score gs0 0 0 0 0 = some 5000 :=
  ⟨mapSizeKm_gs0_pos, haversine_self 0 0,
    claim_C3 gs0 0 0 0 0 mapSizeKm_gs0_pos (haversine_self 0 0)⟩

/-- Counterexample to claim C3 as stated: on gs0 (positive map size), the
guess (0, 1/1000) for answer (0, 0) is at a nonzero haversine distance,
yet predict_score still returns exactly 5000 — the claimed "5000 iff
distance 0" equivalence fails in the only-if direction. -/
theorem claim_C3_counterexample :
    predict_score gs0 0 0 0 (1 / 1000) = some 5000 ∧
      _haversine_distance 0 0 0 (1 / 1000) ≠ 0 := by
  constructor
  · rw [predict_score_eq_some gs0 0 0 0 (1 / 1000) (ne_of_gt mapSizeKm_gs0_pos),
      haversine_small, mapSizeKm_gs0, ratio_small, round_small]
  · exact ne_of_gt haversine_small_pos

/-- Claim C4: with degenerate bounds (min equals max) predict_score fails
with an error (Python float division by zero raises ZeroDivisionError);
with positive map size it always produces a score, so the failing branch
is unreachable. -/
theorem claim_C4 :
    (∀ (gs : GameState) (a b c d : ℝ), gs.bounds.min = gs.bounds.max →
        predict_score gs a b c d = none) ∧
    (∀ (gs : GameState) (a b c d : ℝ), 0 < mapSizeKm gs →
        ∃ s, predict_score gs a b c d = some s) := by
  constructor
  · intro gs a b c d h
    rw [predict_score_eq_none_iff]
    unfold mapSizeKm
    rw [h]
    exact haversine_self _ _
  · intro gs a b c d h
    rw [predict_score_eq_some gs a b c d (ne_of_gt h)]
    exact ⟨_, rfl⟩

/-- Witness for claim C4: the degenerate game state fails, gs0 succeeds. -/
theorem claim_C4_witness :
    predict_score gsDeg 0 0 1 1 = none ∧
      ∃ s, predict_score gs0 0 0 1 1 = some s :=
  ⟨claim_C4.1 gsDeg 0 0 1 1 rfl, claim_C4.2 gs0 0 0 1 1 mapSizeKm_gs0_pos⟩

/-- Claim C5: the round loop of main.main iterates range(1, 2), so the only
round_number played is 1 — not the claimed rounds 1 through 5 (the code
contradicts its own comment that each game has 5 rounds). -/
theorem claim_C5 : mainRoundNumbers = [1] ∧ mainRoundNumbers ≠ [1, 2, 3, 4, 5] := by
  decide

/-! ## ObjectDeduplicator lemmas -/

/-- Two objects are far apart when their pixel distance is at least the
250 px deduplication threshold. -/
def far (a b : InterestingObject) : Prop :=
  250 ≤ mathDist (a.x, a.y) (b.x, b.y)

lemma mathDist_comm (p q : ℤ × ℤ) : mathDist p q = mathDist q p := by
  unfold mathDist
  congr 1
  ring

/-- The float comparison in the source is equivalent to the exact squared
integer comparison, because Real.sqrt is strictly monotone. -/
lemma mathDist_lt_250 (p q : ℤ × ℤ) :
    mathDist p q < 250 ↔ distSq p q < 62500 := by
  unfold mathDist distSq
  rw [Real.sqrt_lt' (by norm_num : (0 : ℝ) < 250)]
  rw [(by push_cast; ring :
    (((p.1 : ℝ) - (q.1 : ℝ)) ^ 2 + ((p.2 : ℝ) - (q.2 : ℝ)) ^ 2) =
      (((p.1 - q.1) ^ 2 + (p.2 - q.2) ^ 2 : ℤ) : ℝ))]
  rw [(by norm_num : ((250 : ℝ)) ^ 2 = ((62500 : ℤ) : ℝ))]
  exact Int.cast_lt

/-- dedupAux agrees with its executable squared-distance twin. -/
lemma dedupAux_eq_sq (l : List InterestingObject) :
    ∀ picked, dedupAux picked l = dedupSqAux picked l := by
  induction l with
  | nil => intro picked; rfl
  | cons obj rest ih =>
    intro picked
    have hcond : (∃ picked_obj ∈ picked,
        mathDist (obj.x, obj.y) (picked_obj.x, picked_obj.y) < 250) ↔
        (picked.any
          (fun p => decide (distSq (obj.x, obj.y) (p.x, p.y) < 62500)) = true) := by
      rw [List.any_eq_true]
      constructor
      · rintro ⟨p, hp, hd⟩
        exact ⟨p, hp, decide_eq_true ((mathDist_lt_250 _ _).mp hd)⟩
      · rintro ⟨p, hp, hd⟩
        exact ⟨p, hp, (mathDist_lt_250 _ _).mpr (of_decide_eq_true hd)⟩
    by_cases h : ∃ picked_obj ∈ picked,
        mathDist (obj.x, obj.y) (picked_obj.x, picked_obj.y) < 250
    · simp only [dedupAux, dedupSqAux]
      rw [if_pos h, if_pos (hcond.mp h)]
      exact ih picked
    · simp only [dedupAux, dedupSqAux]
      rw [if_neg h, if_neg (fun hb => h (hcond.mpr hb))]
      exact ih (picked ++ [obj])

lemma dedup_eq_sq (objects : List InterestingObject) :
    deduplicate_interesting_objects objects = dedupSq objects :=
  dedupAux_eq_sq objects []

/-- dedupAux only ever appends a sublist of its input to the accumulator. -/
lemma dedupAux_append (l : List InterestingObject) :
    ∀ picked, ∃ kept, dedupAux picked l = picked ++ kept ∧ kept.Sublist l := by
  induction l with
  | nil =>
    intro picked
    exact ⟨[], by simp [dedupAux]⟩
  | cons obj rest ih =>
    intro picked
    by_cases h : ∃ picked_obj ∈ picked,
        mathDist (obj.x, obj.y) (picked_obj.x, picked_obj.y) < 250
    · obtain ⟨kept, hk, hs⟩ := ih picked
      refine ⟨kept, ?_, hs.cons obj⟩
      simp only [dedupAux]
      rw [if_pos h]
      exact hk
    · obtain ⟨kept, hk, hs⟩ := ih (picked ++ [obj])
      refine ⟨obj :: kept, ?_, hs.cons₂ obj⟩
      simp only [dedupAux]
      rw [if_neg h, hk]
      simp

/-- dedupAux keeps the accumulator pairwise-far. -/
lemma dedupAux_pairwise (l : List InterestingObject) :
    ∀ picked, picked.Pairwise far → (dedupAux picked l).Pairwise far := by
  induction l with
  | nil =>
    intro picked h
    simpa [dedupAux] using h
  | cons obj rest ih =>
    intro picked h
    by_cases hdup : ∃ picked_obj ∈ picked,
        mathDist (obj.x, obj.y) (picked_obj.x, picked_obj.y) < 250
    · simp only [dedupAux]
      rw [if_pos hdup]
      exact ih picked h
    · simp only [dedupAux]
      rw [if_neg hdup]
      apply ih
      rw [List.pairwise_append]
      push_neg at hdup
      refine ⟨h, List.pairwise_singleton _ _, ?_⟩
      intro a ha b hb
      simp only [List.mem_singleton] at hb
      subst hb
      unfold far
      rw [mathDist_comm]
      exact hdup a ha
    
/-- On a pairwise-far input whose elements are all far from the
accumulator, dedupAux keeps everything. -/
lemma dedupAux_of_pairwise (l : List InterestingObject) :
    ∀ picked, l.Pairwise far →
      (∀ p ∈ picked, ∀ o ∈ l, 250 ≤ mathDist (o.x, o.y) (p.x, p.y)) →
      dedupAux picked l = picked ++ l := by
  induction l with
  | nil =>
    intro picked _ _
    simp [dedupAux]
  | cons obj rest ih =>
    intro picked hpw hfar
    have hdup : ¬ ∃ picked_obj ∈ picked,
        mathDist (obj.x, obj.y) (picked_obj.x, picked_obj.y) < 250 := by
      push_neg
      intro p hp
      exact hfar p hp obj (List.mem_cons_self obj rest)
    have hstep : ∀ p ∈ picked ++ [obj], ∀ o ∈ rest,
        250 ≤ mathDist (o.x, o.y) (p.x, p.y) := by
      intro p hp o ho
      rcases List.mem_append.mp hp with hp1 | hp2
      · exact hfar p hp1 o (List.mem_cons_of_mem obj ho)
      · simp only [List.mem_singleton] at hp2
        rw [hp2]
        have hf : far obj o := (List.pairwise_cons.mp hpw).1 o ho
        unfold far at hf
        rw [mathDist_comm]
        exact hf
    simp only [dedupAux]
    rw [if_neg hdup, ih (picked ++ [obj]) hpw.of_cons hstep]
    simp

/-- The example objects from the specification's dedup test. -/
def objA : InterestingObject := ⟨"a", 0, 0⟩

def objB : InterestingObject := ⟨"b", 10, 10⟩

def objC : InterestingObject := ⟨"c", 1000, 1000⟩

/-! ## Claims C6, C7, C10 -/

/-- Claim C6: deduplicate_interesting_objects is a greedy single pass — an
object is kept exactly when it is at least 250 px from every earlier-kept
object, kept objects appear in input order (the output is a sublist of the
input), and on the example input the near-duplicate b is dropped while a
and c survive, first occurrence winning. -/
theorem claim_C6 :
    (∀ picked obj rest,
        dedupAux picked (obj :: rest) =
          if ∀ p ∈ picked, 250 ≤ mathDist (obj.x, obj.y) (p.x, p.y) then
            dedupAux (picked ++ [obj]) rest
          else dedupAux picked rest) ∧
    (∀ objects, (deduplicate_interesting_objects objects).Sublist objects) ∧
    deduplicate_interesting_objects [objA, objB, objC] = [objA, objC] := by
  refine ⟨?_, ?_, ?_⟩
  · intro picked obj rest
    by_cases h : ∀ p ∈ picked, 250 ≤ mathDist (obj.x, obj.y) (p.x, p.y)
    · rw [if_pos h]
      simp only [dedupAux]
      rw [if_neg]
      push_neg
      exact h
    · rw [if_neg h]
      simp only [dedupAux]
      rw [if_pos]
      push_neg at h
      exact h
  · intro objects
    obtain ⟨kept, hk, hs⟩ := dedupAux_append objects []
    unfold deduplicate_interesting_objects
    rw [hk]
    simpa using hs
  · rw [dedup_eq_sq]
    decide

/-- Claim C7: deduplicate_interesting_objects is idempotent — its output is
pairwise at least 250 px apart, so a second pass keeps everything. -/
theorem claim_C7 (objects : List InterestingObject) :
    deduplicate_interesting_objects (deduplicate_interesting_objects objects) =
      deduplicate_interesting_objects objects := by
  have hpw : (deduplicate_interesting_objects objects).Pairwise far :=
    dedupAux_pairwise objects [] List.Pairwise.nil
  show dedupAux [] (deduplicate_interesting_objects objects) =
    deduplicate_interesting_objects objects
  rw [dedupAux_of_pairwise (deduplicate_interesting_objects objects) [] hpw
    (by intro p hp; exact absurd hp (List.not_mem_nil p))]
  simp

/-- Claim C10: the vlm.py copy of deduplicate_interesting_objects (with the
early return for the empty list) is extensionally equal to the main.py
copy. -/
theorem claim_C10 (objects : List InterestingObject) :
    deduplicate_interesting_objects_vlm objects =
      deduplicate_interesting_objects objects := by
  unfold deduplicate_interesting_objects_vlm deduplicate_interesting_objects
  by_cases h : objects = []
  · subst h
    rfl
  · rw [if_neg h]

/-! ## Claim C8 -/

/-- Claim C8: identify_location_o1 and identify_location_gpt4o succeed
exactly when at least 3 images are supplied, and raise the
input-validation error before any external call otherwise; in particular
2 images raise it. -/
theorem claim_C8 :
    (∀ (images : List String) (r : IdentifiedLocation),
        identify_location_o1 images r = .ok r ↔ 3 ≤ images.length) ∧
    (∀ (images : List String) (r : IdentifiedLocation),
        identify_location_gpt4o images r = .ok r ↔ 3 ≤ images.length) ∧
    (∀ r : IdentifiedLocation,
        identify_location_o1 ["a", "b"] r = .error (.tooFewImages 2) ∧
          identify_location_gpt4o ["a", "b"] r = .error (.tooFewImages 2)) := by
  refine ⟨?_, ?_, ?_⟩
  · intro images r
    unfold identify_location_o1
    by_cases h : images.length < 3
    · rw [if_pos h]
      constructor
      · intro he
        exact absurd he (by simp)
      · intro h3
        omega
    · rw [if_neg h]
      constructor
      · intro _
        omega
      · intro _
        rfl
  · intro images r
    unfold identify_location_gpt4o
    by_cases h : images.length < 3
    · rw [if_pos h]
      constructor
      · intro he
        exact absurd he (by simp)
      · intro h3
        omega
    · rw [if_neg h]
      constructor
      · intro _
        omega
      · intro _
        rfl
  · intro r
    exact ⟨rfl, rfl⟩

/-! ## Claims C1, C2 -/

/-- Claim C1: in the orchestration flow, when the recorded round is the
last round revealed in game_state (round_number equals the number of
rounds, as holds right after the guess for that round is submitted),
save_round_results raises the score-validation failure carrying the
recomputed predicted score exactly when that predicted score differs from
the externally reported actual_score by more than 1 point. -/
theorem claim_C1 (g : GameResults) (game_state : GameState) (round_number : ℤ)
    (gpt4o_location o1_location : LocationDict) (actual_score : ℤ)
    (hpos : 1 ≤ round_number)
    (hlen : round_number = (game_state.rounds.length : ℤ))
    (answer : Round)
    (ha : pythonListGet game_state.rounds (round_number - 1) = some answer)
    (ps : ℤ)
    (hps : predict_score game_state answer.lat answer.lng
      gpt4o_location.latitude gpt4o_location.longitude = some ps) :
    (save_round_results g game_state round_number gpt4o_location o1_location
        actual_score).2 = .error (.scoreMismatch ps actual_score) ↔
      1 < |ps - actual_score| := by
  have hm : mapSizeKm game_state ≠ 0 := by
    intro h0
    rw [(predict_score_eq_none_iff game_state answer.lat answer.lng
      gpt4o_location.latitude gpt4o_location.longitude).mpr h0] at hps
    exact Option.noConfusion hps
  have hlast : pythonListGet game_state.rounds (-1) = some answer := by
    unfold pythonListGet at ha ⊢
    rw [if_pos (by omega : (0 : ℤ) ≤ round_number - 1)] at ha
    rw [if_neg (by norm_num : ¬ (0 : ℤ) ≤ -1),
      if_pos (by omega : (0 : ℤ) ≤ -1 + (game_state.rounds.length : ℤ)),
      (by omega : ((-1 : ℤ) + (game_state.rounds.length : ℤ)).toNat =
        (round_number - 1).toNat)]
    exact ha
  have ho1 := predict_score_eq_some game_state answer.lat answer.lng
    o1_location.latitude o1_location.longitude hm
  by_cases hd : 1 < |ps - actual_score|
  · have hcheck : _check_score_prediction game_state gpt4o_location.latitude
        gpt4o_location.longitude actual_score =
          .error (.scoreMismatch ps actual_score) := by
      simp only [_check_score_prediction, hlast, hps]
      rw [if_pos hd]
    simp only [save_round_results, ha, ho1, hcheck]
    simp [hd]
  · have hcheck : _check_score_prediction game_state gpt4o_location.latitude
        gpt4o_location.longitude actual_score = .ok () := by
      simp only [_check_score_prediction, hlast, hps]
      rw [if_neg hd]
    simp only [save_round_results, ha, ho1, hcheck]
    simp [hd]

/-- The score check on gs0 at the exact answer with a reported score of 0:
the 5000-point prediction mismatches by more than 1. -/
lemma check_gs0_zero :
    _check_score_prediction gs0 0 0 0 = .error (.scoreMismatch 5000 0) := by
  have hlast0 : pythonListGet gs0.rounds (-1) = some (⟨0, 0⟩ : Round) := rfl
  simp only [_check_score_prediction, hlast0, predict_score_gs0_self]
  rw [if_pos (by norm_num : (1 : ℤ) < |(5000 : ℤ) - 0|)]

/-- Concrete run of save_round_results on gs0 with actual_score 0: the
score check fails, yet a round has been appended. -/
lemma save_g0_eval :
    (save_round_results g0 gs0 1 loc0 loc0 0).2 =
        .error (.scoreMismatch 5000 0) ∧
      (save_round_results g0 gs0 1 loc0 loc0 0).1.rounds.length = 1 := by
  have hidx : pythonListGet gs0.rounds ((1 : ℤ) - 1) = some (⟨0, 0⟩ : Round) := rfl
  have hL : loc0.latitude = 0 := rfl
  have hG : loc0.longitude = 0 := rfl
  have hps : predict_score gs0 0 0 0 0 = some 5000 := predict_score_gs0_self
  constructor
  · simp only [save_round_results, hidx, hL, hG, hps, check_gs0_zero]
  · simp only [save_round_results, hidx, hL, hG, hps, check_gs0_zero]
    simp [g0]

/-- Witness for claim C1 at a concrete input: one round at the origin,
guess at the origin, reported score 5000; all hypotheses hold and the
check equivalence is exercised. -/
theorem claim_C1_witness :
    (1 : ℤ) ≤ 1 ∧
      (1 : ℤ) = (gs0.rounds.length : ℤ) ∧
      pythonListGet gs0.rounds (1 - 1) = some (⟨0, 0⟩ : Round) ∧
      predict_score gs0 0 0 0 0 = some 5000 ∧
      ((save_round_results g0 gs0 1 loc0 loc0 5000).2 =
          .error (.scoreMismatch 5000 5000) ↔ 1 < |(5000 : ℤ) - 5000|) :=
  ⟨le_refl 1, rfl, rfl, predict_score_gs0_self,
    claim_C1 g0 gs0 1 loc0 loc0 5000 (le_refl 1) rfl ⟨0, 0⟩ rfl 5000
      predict_score_gs0_self⟩

/-- Claim C2 (amended): a failure hit before the append (round lookup
IndexError, or ZeroDivisionError in the o1 score prediction on a
degenerate map) leaves GameResults unchanged, but a score-validation
failure is raised only after the RoundResult has been appended, so on that
error the rounds list has grown by the new round — rounds length counts
rounds that reached recording, not rounds that passed validation. -/
theorem claim_C2 (g : GameResults) (game_state : GameState) (round_number : ℤ)
    (gpt4o_location o1_location : LocationDict) (actual_score : ℤ) :
    (pythonListGet game_state.rounds (round_number - 1) = none →
      (save_round_results g game_state round_number gpt4o_location o1_location
        actual_score).1 = g) ∧
    (mapSizeKm game_state = 0 →
      (save_round_results g game_state round_number gpt4o_location o1_location
        actual_score).1 = g) ∧
    (∀ p a, (save_round_results g game_state round_number gpt4o_location
        o1_location actual_score).2 = .error (.scoreMismatch p a) →
      ∃ rr, (save_round_results g game_state round_number gpt4o_location
        o1_location actual_score).1.rounds = g.rounds ++ [rr]) := by
  refine ⟨?_, ?_, ?_⟩
  · intro h
    simp only [save_round_results, h]
  · intro h
    rcases hidx : pythonListGet game_state.rounds (round_number - 1) with _ | ac
    · simp only [save_round_results, hidx]
    · have hnone := (predict_score_eq_none_iff game_state ac.lat ac.lng
        o1_location.latitude o1_location.longitude).mpr h
      simp only [save_round_results, hidx, hnone]
  · intro p a herr
    rcases hidx : pythonListGet game_state.rounds (round_number - 1) with _ | ac
    · simp [save_round_results, hidx] at herr
    · rcases hps : predict_score game_state ac.lat ac.lng
          o1_location.latitude o1_location.longitude with _ | o1s
      · simp [save_round_results, hidx, hps] at herr
      · cases hchk : _check_score_prediction game_state
            gpt4o_location.latitude gpt4o_location.longitude actual_score with
        | error e =>
          simp only [save_round_results, hidx, hps, hchk]
          exact ⟨_, rfl⟩
        | ok u =>
          simp [save_round_results, hidx, hps, hchk] at herr

/-- Counterexample to claim C2 as stated: on gs0 with reported score 0 the
score-validation check raises, yet the rounds list did change — a partial
RoundResult was recorded for the failed round. -/
theorem claim_C2_counterexample :
    (save_round_results g0 gs0 1 loc0 loc0 0).2 =
        .error (.scoreMismatch 5000 0) ∧
      (save_round_results g0 gs0 1 loc0 loc0 0).1.rounds ≠ g0.rounds := by
  refine ⟨save_g0_eval.1, ?_⟩
  intro h
  have hlen := save_g0_eval.2
  rw [h] at hlen
  simp [g0] at hlen

/-- Witness for claim C2: the pre-append failure cases leave g0 unchanged
(empty rounds list, degenerate bounds), and the score-mismatch case has
appended exactly one round. -/
theorem claim_C2_witness :
    (save_round_results g0 gsEmpty 1 loc0 loc0 0).1 = g0 ∧
      (save_round_results g0 gsDeg 1 loc0 loc0 0).1 = g0 ∧
      ∃ rr, (save_round_results g0 gs0 1 loc0 loc0 0).1.rounds =
        g0.rounds ++ [rr] :=
  ⟨(claim_C2 g0 gsEmpty 1 loc0 loc0 0).1 rfl,
    (claim_C2 g0 gsDeg 1 loc0 loc0 0).2.1 mapSizeKm_gsDeg,
    (claim_C2 g0 gs0 1 loc0 loc0 0).2.2 5000 0 save_g0_eval.1⟩

/-! ## Claim C9 -/

/-- A guess fixture carrying only a distance. -/
def mkGuess (d : ℝ) : LocationGuess := ⟨0, 0, 0, d, ""⟩

/-- A round fixture whose guesses are at distance d. -/
def mkRound (d : ℝ) : RoundResult := ⟨0, mkGuess d, mkGuess d, ⟨0, 0⟩⟩

/-- Claim C9: both aggregators report as median the element at index
len / 2 of the sorted distance list (lower-middle convention, never
interpolated); on distances [1, 3, 2] the median is 2 and on
[1, 2, 3, 4] it is 3. -/
theorem claim_C9 :
    (∀ (model_name : String) (rounds : List RoundResult)
        (score_fn : RoundResult → ℤ) (distance_fn : RoundResult → ℝ)
        (total_games : ℤ),
        (ModelStats.from_rounds model_name rounds score_fn distance_fn
            total_games).map ModelStats.median_distance_km =
          if rounds = [] ∨ total_games = 0 then none
          else
            some ((List.insertionSort (fun a b => a ≤ b)
              (rounds.map distance_fn)).getD (rounds.length / 2) 0)) ∧
    (∀ (model_name : String) (rounds : List RoundResult)
        (score_fn : RoundResult → ℤ) (distance_fn : RoundResult → ℝ)
        (total_games : ℤ),
        (AggregateModelStats.from_rounds model_name rounds score_fn
            distance_fn total_games).map
            (fun s => s.toModelStats.median_distance_km) =
          if rounds = [] ∨ total_games = 0 then none
          else
            some ((List.insertionSort (fun a b => a ≤ b)
              (rounds.map distance_fn)).getD (rounds.length / 2) 0)) ∧
    (ModelStats.from_rounds "" [mkRound 1, mkRound 3, mkRound 2]
        (fun r => r.gpt4o_guess.score) (fun r => r.gpt4o_guess.distance_km)
        1).map ModelStats.median_distance_km = some 2 ∧
    (ModelStats.from_rounds "" [mkRound 1, mkRound 2, mkRound 3, mkRound 4]
        (fun r => r.gpt4o_guess.score) (fun r => r.gpt4o_guess.distance_km)
        1).map ModelStats.median_distance_km = some 3 := by
  refine ⟨?_, ?_, ?_, ?_⟩
  · intro model_name rounds score_fn distance_fn total_games
    by_cases h : rounds = [] ∨ total_games = 0
    · simp [ModelStats.from_rounds, h]
    · simp [ModelStats.from_rounds, h, List.length_map]
  · intro model_name rounds score_fn distance_fn total_games
    by_cases h : rounds = [] ∨ total_games = 0
    · simp [AggregateModelStats.from_rounds, h]
    · simp [AggregateModelStats.from_rounds, h, List.length_map]
  · norm_num [ModelStats.from_rounds, mkRound, mkGuess,
      List.insertionSort, List.orderedInsert]
    exact ⟨_, ⟨by simp, rfl⟩, rfl⟩
  · norm_num [ModelStats.from_rounds, mkRound, mkGuess,
      List.insertionSort, List.orderedInsert]
    exact ⟨_, ⟨by simp, rfl⟩, rfl⟩
